import Mathlib

/-!
Shallow embedding of the BVD-Backend registry service (identifier codec,
discovery-date validator, registry routes) together with proofs about it.
Each definition mirrors one function or route of the JavaScript source;
doc comments name the source location.
-/

/-- Numeric value of a list of ASCII digit characters, most significant digit
first: the behavior of JavaScript parseInt on an all-digit decimal string. -/
def digitsToNat (cs : List Char) : Nat :=
  cs.foldl (fun a c => 10 * a + (c.toNat - 48)) 0

/-- Error message constants of src/backend/services/blockchain.js
(validateDiscoveryDate). -/
def msgEmptyDate : String := "Discovery date cannot be empty"

def msgYearDigits : String := "Year must contain only digits"

def msgYearRange : String := "Year must be between 1990 and 9999"

def msgDateFormat : String := "Discovery date must be in YYYY-MM-DD format"

def msgMonthRange : String := "Month must be between 1 and 12"

def msgDayRange : String := "Day must be between 1 and 31"

def msgFebDays : String := "February has at most 29 days"

def msgThirtyDays : String := "This month has at most 30 days"

def msgEitherFormat : String := "Discovery date must be in YYYY or YYYY-MM-DD format"

/-- The year, month and day read off a ten-character list matching the regex
from src/backend/services/blockchain.js, line 176: digits 4-2-2 separated by
dashes.  Returns none when the list does not match the shape. -/
def dateFields (cs : List Char) : Option (Nat × Nat × Nat) :=
  match cs with
  | [y1, y2, y3, y4, '-', m1, m2, '-', d1, d2] =>
    if y1.isDigit && y2.isDigit && y3.isDigit && y4.isDigit &&
       m1.isDigit && m2.isDigit && d1.isDigit && d2.isDigit then
      some (digitsToNat [y1, y2, y3, y4], digitsToNat [m1, m2], digitsToNat [d1, d2])
    else
      none
  | _ => none

/-- validateDiscoveryDate from src/backend/services/blockchain.js,
lines 152-215: returns the pair [isValid, errorMessage]. -/
def validateDiscoveryDate (d : String) : Bool × String :=
  if d = "" then (false, msgEmptyDate)
  else if d.length = 4 then
    if d.toList.all Char.isDigit then
      if digitsToNat d.toList < 1990 ∨ 9999 < digitsToNat d.toList then
        (false, msgYearRange)
      else (true, "")
    else (false, msgYearDigits)
  else if d.length = 10 then
    match dateFields d.toList with
    | none => (false, msgDateFormat)
    | some (year, month, day) =>
      if year < 1990 ∨ 9999 < year then (false, msgYearRange)
      else if month < 1 ∨ 12 < month then (false, msgMonthRange)
      else if day < 1 ∨ 31 < day then (false, msgDayRange)
      else if month = 2 ∧ 29 < day then (false, msgFebDays)
      else if (month = 4 ∨ month = 6 ∨ month = 9 ∨ month = 11) ∧ 30 < day then
        (false, msgThirtyDays)
      else (true, "")
  else (false, msgEitherFormat)

/-- extractYearFromDate from src/backend/services/blockchain.js,
lines 397-420: best-effort year extraction, 0 on empty or malformed input. -/
def extractYearFromDate (d : String) : Nat :=
  if d = "" then 0
  else if d.length = 4 ∧ d.toList.all Char.isDigit then digitsToNat d.toList
  else if d.length = 10 ∧ (dateFields d.toList).isSome then
    digitsToNat (d.toList.take 4)
  else 0

/- Concrete date strings used in the boundary statements. -/
def dateY1989 : String := "1989"

def dateY1990 : String := "1990"

def dateFeb30 : String := "2023-02-30"

def dateApr31 : String := "2023-04-31"

def dateApr30 : String := "2023-04-30"

def dateMonth13 : String := "2023-13-01"

def dateEmpty : String := ""

def dateMonth13Day45 : String := "2023-13-45"

/-- **C3** The discovery-date validator accepts exactly the two shapes YYYY and
YYYY-MM-DD (every accepted string has one of the two digit shapes), and the
stated boundaries hold: 1989 fails, 1990 succeeds, 2023-02-30 fails,
2023-04-31 fails, 2023-04-30 succeeds, 2023-13-01 fails, the empty string
fails, and extractYear of the empty string is 0. -/
theorem validateDiscoveryDate_boundaries :
    ((validateDiscoveryDate dateY1989).1 = false ∧
     (validateDiscoveryDate dateY1990).1 = true ∧
     (validateDiscoveryDate dateFeb30).1 = false ∧
     (validateDiscoveryDate dateApr31).1 = false ∧
     (validateDiscoveryDate dateApr30).1 = true ∧
     (validateDiscoveryDate dateMonth13).1 = false ∧
     (validateDiscoveryDate dateEmpty).1 = false ∧
     extractYearFromDate dateEmpty = 0) ∧
    ∀ s : String, (validateDiscoveryDate s).1 = true →
      (s.length = 4 ∧ s.toList.all Char.isDigit = true) ∨
      (s.length = 10 ∧ (dateFields s.toList).isSome = true) := by
  constructor
  · exact ⟨by decide, by decide, by decide, by decide, by decide, by decide,
      by decide, by decide⟩
  · intro s hs
    unfold validateDiscoveryDate at hs
    split at hs
    · simp at hs
    · split at hs
      · split at hs
        · rename_i hne h4 hdig
          exact Or.inl ⟨h4, hdig⟩
        · simp at hs
      · split at hs
        · rename_i hlen10
          split at hs
          · simp at hs
          · rename_i heq
            right
            exact ⟨hlen10, by rw [heq]; rfl⟩
        · simp at hs

/-- Witness for the universally quantified part of the C3 theorem, at the
concrete accepted input 1990. -/
theorem validateDiscoveryDate_boundaries_witness :
    (dateY1990.length = 4 ∧ dateY1990.toList.all Char.isDigit = true) ∨
    (dateY1990.length = 10 ∧ (dateFields dateY1990.toList).isSome = true) :=
  validateDiscoveryDate_boundaries.2 dateY1990 (by decide)

/-- A successful dateFields match pins the list to ten characters and its year
component to the numeric value of the first four characters. -/
theorem dateFields_shape (cs : List Char) (y m d : Nat)
    (h : dateFields cs = some (y, m, d)) :
    cs.length = 10 ∧ y = digitsToNat (cs.take 4) := by
  unfold dateFields at h
  split at h
  · split at h
    · injection h with h
      refine ⟨rfl, ?_⟩
      exact (congrArg Prod.fst h).symm
    · exact absurd h (by simp)
  · exact absurd h (by simp)

/-- **C10** extractYearFromDate is purely syntactic and total: on every string
whose characters match the 4-2-2 digit date shape it returns the value of the
first four digits even when validateDiscoveryDate rejects the string (2023-13-45
gives 2023); it returns 0 on every other non-conforming input; and on every
string the validator accepts it returns that string's year, which lies in
[1990, 9999]. -/
theorem extractYearFromDate_spec :
    (∀ s : String, (dateFields s.toList).isSome = true →
        extractYearFromDate s = digitsToNat (s.toList.take 4)) ∧
    extractYearFromDate dateMonth13Day45 = 2023 ∧
    (validateDiscoveryDate dateMonth13Day45).1 = false ∧
    (∀ s : String, ¬(s.length = 4 ∧ s.toList.all Char.isDigit = true) →
        (dateFields s.toList).isSome = false → extractYearFromDate s = 0) ∧
    (∀ s : String, (validateDiscoveryDate s).1 = true →
        extractYearFromDate s = digitsToNat (s.toList.take 4) ∧
        1990 ≤ extractYearFromDate s ∧ extractYearFromDate s ≤ 9999) := by
  refine ⟨?_, by decide, by decide, ?_, ?_⟩
  · intro s h
    obtain ⟨⟨y, m, d⟩, hsome⟩ := Option.isSome_iff_exists.mp h
    obtain ⟨hlen, hy⟩ := dateFields_shape _ _ _ _ hsome
    have hne : ¬ s = "" := by
      intro he
      subst he
      simp at hlen
    have hnot4 : ¬ (s.length = 4 ∧ s.toList.all Char.isDigit = true) := by
      intro hc
      have h4 : s.toList.length = 4 := hc.1
      omega
    have hlen10 : s.length = 10 := hlen
    unfold extractYearFromDate
    rw [if_neg hne, if_neg hnot4, if_pos ⟨hlen10, h⟩]
  · intro s h4 h10
    have h3 : ¬ (s.length = 10 ∧ (dateFields s.toList).isSome = true) := by
      intro hc
      rw [hc.2] at h10
      simp at h10
    unfold extractYearFromDate
    by_cases hne : s = ""
    · rw [if_pos hne]
    · rw [if_neg hne, if_neg h4, if_neg h3]
  · intro s hv
    unfold validateDiscoveryDate at hv
    split at hv
    · simp at hv
    · split at hv
      · split at hv
        · rename_i hne h4 hdig
          split at hv
          · simp at hv
          · rename_i hrange
            push_neg at hrange
            have htake : s.toList.take 4 = s.toList := by
              have hl4 : s.toList.length = 4 := h4
              rw [← hl4, List.take_length]
            have hx : extractYearFromDate s = digitsToNat s.toList := by
              unfold extractYearFromDate
              rw [if_neg hne, if_pos ⟨h4, hdig⟩]
            rw [htake, hx]
            exact ⟨rfl, hrange.1, hrange.2⟩
        · simp at hv
      · split at hv
        · rename_i hne hnot4len hlen10
          split at hv
          · simp at hv
          · rename_i year month day heq
            split at hv
            · simp at hv
            · rename_i hyr
              push_neg at hyr
              obtain ⟨hlen, hy⟩ := dateFields_shape _ _ _ _ heq
              have hsome : (dateFields s.toList).isSome = true := by
                rw [heq]
                rfl
              have hnot4 : ¬ (s.length = 4 ∧ s.toList.all Char.isDigit = true) := by
                intro hc
                have hc4 : s.toList.length = 4 := hc.1
                omega
              have hx : extractYearFromDate s = digitsToNat (s.toList.take 4) := by
                unfold extractYearFromDate
                rw [if_neg hne, if_neg hnot4, if_pos ⟨hlen10, hsome⟩]
              rw [hx, ← hy]
              exact ⟨rfl, hyr.1, hyr.2⟩
        · simp at hv

/-- Witness for the quantified parts of the C10 theorem, at the accepted input
2023-04-30. -/
theorem extractYearFromDate_spec_witness :
    extractYearFromDate dateApr30 = digitsToNat (dateApr30.toList.take 4) ∧
    1990 ≤ extractYearFromDate dateApr30 ∧
    extractYearFromDate dateApr30 ≤ 9999 :=
  extractYearFromDate_spec.2.2.2.2 dateApr30 (by decide)

/-- The legacy id check of src/backend/utils/helpers.js line 7, also inlined at
src/backend/server.js lines 252, 511, 620 and 1022: BVC- then exactly three
uppercase letters, a dash, and exactly three digits. -/
def matchesLegacyIdShape (s : String) : Bool :=
  match s.toList with
  | ['B', 'V', 'C', '-', a, b, c, '-', x, y, z] =>
    a.isUpper && b.isUpper && c.isUpper && x.isDigit && y.isDigit && z.isDigit
  | _ => false

/-- validateVulnerabilityId from src/backend/utils/helpers.js lines 6-10:
true when the id passes, false when the function throws Invalid ID format. -/
def validateVulnerabilityId (id : String) : Bool :=
  matchesLegacyIdShape id

/-- The updated id check of the revised helpers file (src/unnamed/part_008):
the regex BVC-[A-Z]{2,5}-[0-9]{4}-[0-9]{3,5}, which is exactly the grammar the
claim states (platform of 2-5 uppercase letters, 4-digit year, 3-5 digit
sequence). -/
def matchesBvcGrammar (s : String) : Bool :=
  match s.toList with
  | 'B' :: 'V' :: 'C' :: '-' :: rest =>
    let p := rest.takeWhile Char.isUpper
    decide (2 ≤ p.length ∧ p.length ≤ 5) &&
    match rest.dropWhile Char.isUpper with
    | '-' :: r2 =>
      decide ((r2.takeWhile Char.isDigit).length = 4) &&
      match r2.dropWhile Char.isDigit with
      | '-' :: r4 =>
        r4.all Char.isDigit && decide (3 ≤ r4.length ∧ r4.length ≤ 5)
      | _ => false
    | _ => false
  | _ => false

/-- The canonical id documented throughout docs/API.md (for example lines 58,
149 and 442: all vulnerability IDs follow the format BVC-PLATFORM-YEAR-ID). -/
def docExampleId : String := "BVC-ETH-2023-001"

/-- **C2** code-bug evidence: the id validator of src/backend/utils/helpers.js
rejects the repository's own documented canonical id BVC-ETH-2023-001, which
the claimed grammar (and the revised helpers of src/unnamed/part_008) accept. -/
theorem validateVulnerabilityId_rejects_documented_id :
    validateVulnerabilityId docExampleId = false ∧
    matchesBvcGrammar docExampleId = true := by
  exact ⟨by decide, by decide⟩

/-- Result of the id-resolution ternary shared by the status-toggle and
version-history endpoints (src/backend/routes/vulnerabilities.js lines 440 and
485, src/backend/routes/vulnerabilities/create.js status handler): either the
raw string is passed to the ledger unchanged, or generateBaseId (keccak256 of
the UTF-8 bytes, src/backend/utils/helpers.js line 4) is applied first.  The
derived constructor records the generateBaseId application symbolically. -/
inductive LedgerKey where
  | raw : String → LedgerKey
  | derived : String → LedgerKey
deriving DecidableEq

/-- The test of the source ternary: JavaScript id.startsWith of the literal
BVC followed by a dash. -/
def startsWithBVC (id : String) : Bool :=
  match id.toList with
  | 'B' :: 'V' :: 'C' :: '-' :: _ => true
  | _ => false

/-- The id-resolution expression at the three cited call sites. -/
def resolveVulnerabilityId (id : String) : LedgerKey :=
  if startsWithBVC id then LedgerKey.derived id else LedgerKey.raw id

/-- One ASCII hex digit. -/
def isHexDigitChar (c : Char) : Bool :=
  c.isDigit || ('a' ≤ c && c ≤ 'f') || ('A' ≤ c && c ≤ 'F')

/-- Modelled from the spec, section 4.1 (isLikelyBaseId): the fixed-length
0x-prefixed hex shape of a bytes32 key, i.e. 0x followed by exactly 64 hex
digits.  Stated from the spec's words for comparison with the code's actual
decision predicate. -/
def matchesHexBaseIdShape (s : String) : Bool :=
  match s.toList with
  | '0' :: 'x' :: rest => decide (rest.length = 64) && rest.all isHexDigitChar
  | _ => false

/-- A legacy text identifier: not hex-shaped, yet passed to the ledger raw. -/
def cexPlainTextId : String := "legacy-text-id"

/-- **C1** counterexample: legacy-text-id does not match the fixed-length hex
shape, so under the claim it would be converted via deriveBaseId, but the code
passes it to the ledger as a raw BaseId. -/
theorem resolveVulnerabilityId_cex :
    resolveVulnerabilityId cexPlainTextId = LedgerKey.raw cexPlainTextId ∧
    matchesHexBaseIdShape cexPlainTextId = false := by
  exact ⟨by decide, by decide⟩

/-- **C1** amended: at the endpoints accepting either id kind, a string is
treated as a raw BaseId iff it does not start with BVC-, and is converted via
deriveBaseId exactly when it does.  Every fixed-length 0x-prefixed hex string
is still treated as raw (that direction of the original claim holds). -/
theorem resolveVulnerabilityId_spec :
    ∀ id : String,
      (resolveVulnerabilityId id = LedgerKey.raw id ↔ startsWithBVC id = false) ∧
      (startsWithBVC id = true → resolveVulnerabilityId id = LedgerKey.derived id) ∧
      (matchesHexBaseIdShape id = true → resolveVulnerabilityId id = LedgerKey.raw id) := by
  intro id
  refine ⟨?_, ?_, ?_⟩
  · cases hb : startsWithBVC id <;> simp [resolveVulnerabilityId, hb]
  · intro hb
    simp [resolveVulnerabilityId, hb]
  · intro hhex
    have hb : startsWithBVC id = false := by
      unfold matchesHexBaseIdShape at hhex
      unfold startsWithBVC
      split at hhex
      · rename_i heq
        split
        · rename_i heq2
          rw [heq2] at heq
          simp at heq
        · rfl
      · simp at hhex
    simp [resolveVulnerabilityId, hb]

/-- A well-formed bytes32 hex key. -/
def sampleHexBaseId : String :=
  "0x1234567890abcdef1234567890abcdef1234567890abcdef1234567890abcdef"

/-- Witness for the C1 amended theorem: a concrete bytes32 hex key is passed
to the ledger raw. -/
theorem resolveVulnerabilityId_spec_witness :
    resolveVulnerabilityId sampleHexBaseId = LedgerKey.raw sampleHexBaseId :=
  (resolveVulnerabilityId_spec sampleHexBaseId).2.2 (by decide)

/-- The health route of src/backend/server.js lines 956-1002: three sequential
reachability checks inside one try block (ledger provider block number, registry
contract call, content-store gateway head request); the first failure jumps to
the catch, which responds 503; the 200 OK body is reached only when all three
succeed.  Each boolean states whether the corresponding collaborator call
succeeds; the result is the HTTP status code. -/
def healthRoute (ledgerUp contractUp contentStoreUp : Bool) : Nat :=
  if ledgerUp then
    if contractUp then
      if contentStoreUp then 200 else 503
    else 503
  else 503

/-- **C9** The health endpoint never reports healthy while the ledger gateway
is unreachable, even with the content store reachable; whenever any required
collaborator is unreachable it responds 503; 200 exactly when all are up. -/
theorem healthRoute_ledger_authority :
    ∀ ledgerUp contractUp contentStoreUp : Bool,
      (ledgerUp = false → healthRoute ledgerUp contractUp contentStoreUp = 503) ∧
      (healthRoute ledgerUp contractUp contentStoreUp = 200 ↔
        ledgerUp = true ∧ contractUp = true ∧ contentStoreUp = true) ∧
      ((ledgerUp = false ∨ contentStoreUp = false) →
        healthRoute ledgerUp contractUp contentStoreUp = 503) := by
  decide

/-- Witness: ledger gateway down while the content store is up: 503. -/
theorem healthRoute_ledger_authority_witness :
    healthRoute false true true = 503 :=
  (healthRoute_ledger_authority false true true).1 rfl

/-- The on-ledger record destructured by the fetch-one route,
src/backend/routes/vulnerabilities.js line 166. -/
structure LedgerRecord where
  bvcId : String
  version : Nat
  baseId : String
  title : String
  description : String
  ipfsCid : String
  platform : String
  discoveryDate : String
  isActive : Bool
deriving DecidableEq

/-- Outcome of blockchain.getVulnerability as the route distinguishes it: a
record, an error whose message contains does-not-exist, or any other error. -/
inductive LedgerOutcome where
  | found : LedgerRecord → LedgerOutcome
  | doesNotExist : LedgerOutcome
  | otherError : LedgerOutcome

/-- The response of the fetch-one route: HTTP status, the ledger metadata when
found, and the content body fetched from the content store (none when the
content fetch failed, timed out, or no cid was stored). -/
structure FetchOneResponse where
  status : Nat
  metadata : Option LedgerRecord
  contentBody : Option String
deriving DecidableEq

/-- The getVulnerability route, src/backend/routes/vulnerabilities.js lines
156-214: on ledger success the content body is fetched best-effort (inner
try/catch with a 3000 ms timeout) and a fetch failure only leaves the data
field null; a does-not-exist ledger error gives 404; any other error 500. -/
def getVulnerabilityRoute (ledger : LedgerOutcome)
    (contentFetch : String → Option String) : FetchOneResponse :=
  match ledger with
  | LedgerOutcome.found r =>
      { status := 200
        metadata := some r
        contentBody := if r.ipfsCid = "" then none else contentFetch r.ipfsCid }
  | LedgerOutcome.doesNotExist =>
      { status := 404, metadata := none, contentBody := none }
  | LedgerOutcome.otherError =>
      { status := 500, metadata := none, contentBody := none }

/-- **C7** When the ledger lookup succeeds but every content-store retrieval
fails or times out, the fetch-one response is still HTTP 200 with the ledger
metadata populated and a null content body, never a 500. -/
theorem getVulnerabilityRoute_degrades :
    ∀ r : LedgerRecord,
      (getVulnerabilityRoute (LedgerOutcome.found r) (fun _ => none)).status = 200 ∧
      (getVulnerabilityRoute (LedgerOutcome.found r) (fun _ => none)).metadata = some r ∧
      (getVulnerabilityRoute (LedgerOutcome.found r) (fun _ => none)).contentBody = none := by
  intro r
  refine ⟨rfl, rfl, ?_⟩
  by_cases h : r.ipfsCid = "" <;> simp [getVulnerabilityRoute, h]

/-- Body of the getAllVulnerabilities enumeration loop,
src/backend/routes/vulnerabilities.js lines 227-259 (the paginated route of
lines 295-334 has the same shape): each detail fetch sits in a try/catch whose
catch only logs Skipping invalid entry, so a failed entry is omitted from the
response array while the loop continues with the rest.  The detail fetch is
abstracted as a function from id to Except. -/
def getAllVulnerabilitiesLoop {α : Type} (fetch : String → Except String α)
    (ids : List String) : List α :=
  match ids with
  | [] => []
  | id :: rest =>
    match fetch id with
    | Except.ok v => v :: getAllVulnerabilitiesLoop fetch rest
    | Except.error _ => getAllVulnerabilitiesLoop fetch rest

/-- One entry of the service-level paginated bulk fetch: either the full data
for an id, or the minimal object carrying the id and the error message. -/
inductive PageEntry (α : Type) where
  | ok : String → α → PageEntry α
  | failed : String → String → PageEntry α
deriving DecidableEq

/-- Body of the getPaginatedAllVulnerabilities enumeration loop,
src/backend/services/blockchain.js lines 346-374: a failed detail fetch pushes
a minimal object with the id and the error message (data null) and the loop
continues. -/
def getPaginatedAllVulnerabilitiesLoop {α : Type} (fetch : String → Except String α)
    (ids : List String) : List (PageEntry α) :=
  match ids with
  | [] => []
  | id :: rest =>
    match fetch id with
    | Except.ok v =>
        PageEntry.ok id v :: getPaginatedAllVulnerabilitiesLoop fetch rest
    | Except.error e =>
        PageEntry.failed id e :: getPaginatedAllVulnerabilitiesLoop fetch rest

def cexIdA : String := "BVC-ETH-2023-001"

def cexIdB : String := "BVC-SOL-2023-001"

def cexIdC : String := "BVC-MULTI-2023-001"

def cexIds : List String := [cexIdA, cexIdB, cexIdC]

def msgFetchFailed : String := "execution reverted"

/-- Detail-fetch oracle that fails on the middle id only. -/
def cexFetch : String → Except String Nat :=
  fun id => if id = cexIdB then Except.error msgFetchFailed else Except.ok 7

/-- **C5** counterexample: with three ids where the middle detail fetch fails,
the route-level fetch-all loop returns only two entries: the failed id is
silently dropped from the response (it is only logged), contradicting the claim
that in every bulk enumeration each failed entry appears with a per-item error
marker. -/
theorem bulkEnumeration_drop_cex :
    cexFetch cexIdB = Except.error msgFetchFailed ∧
    getAllVulnerabilitiesLoop cexFetch cexIds = [7, 7] ∧
    cexIds.length = 3 := by
  exact ⟨rfl, rfl, rfl⟩

/-- **C5** amended: a failed detail fetch never aborts enumeration (every
successfully fetched entry still appears, in both loops), and the
service-level paginated loop keeps one entry per input id with each failed id
present as a per-item error marker; the route-level loops, however, omit
failed entries from the response instead of marking them. -/
theorem bulkEnumeration_isolation :
    ∀ (α : Type) (fetch : String → Except String α) (ids : List String),
      (getPaginatedAllVulnerabilitiesLoop fetch ids).length = ids.length ∧
      (∀ id e, id ∈ ids → fetch id = Except.error e →
        PageEntry.failed id e ∈ getPaginatedAllVulnerabilitiesLoop fetch ids) ∧
      (∀ id v, id ∈ ids → fetch id = Except.ok v →
        v ∈ getAllVulnerabilitiesLoop fetch ids) := by
  intro α fetch ids
  induction ids with
  | nil =>
    refine ⟨rfl, ?_, ?_⟩
    · intro id e hmem
      simp at hmem
    · intro id v hmem
      simp at hmem
  | cons hd tl ih =>
    obtain ⟨ih1, ih2, ih3⟩ := ih
    refine ⟨?_, ?_, ?_⟩
    · cases hf : fetch hd <;>
        simp [getPaginatedAllVulnerabilitiesLoop, hf, ih1]
    · intro id e hmem hfe
      rcases List.mem_cons.mp hmem with heq | htl
      · subst heq
        simp [getPaginatedAllVulnerabilitiesLoop, hfe]
      · have hrec := ih2 id e htl hfe
        cases hf : fetch hd <;>
          simp [getPaginatedAllVulnerabilitiesLoop, hf, hrec]
    · intro id v hmem hfv
      rcases List.mem_cons.mp hmem with heq | htl
      · subst heq
        simp [getAllVulnerabilitiesLoop, hfv]
      · have hrec := ih3 id v htl hfv
        cases hf : fetch hd <;>
          simp [getAllVulnerabilitiesLoop, hf, hrec]

/-- Witness for the C5 amended theorem: in the concrete three-id scenario the
service-level loop carries the failed middle id as an explicit error entry. -/
theorem bulkEnumeration_isolation_witness :
    PageEntry.failed cexIdB msgFetchFailed ∈
      getPaginatedAllVulnerabilitiesLoop cexFetch cexIds :=
  (bulkEnumeration_isolation Nat cexFetch cexIds).2.1 cexIdB msgFetchFailed
    (by simp [cexIds]) rfl

/-- The input fields of a create request (the loaded vulnerability file),
src/backend/routes/vulnerabilities/create.js.  A missing required field is
modelled as the empty string, which the route's falsiness test rejects. -/
structure VulnInput where
  title : String
  description : String
  platform : String
  discoveryDate : String
deriving DecidableEq

/-- One outgoing collaborator call of the create flow, recorded in issue
order. -/
inductive ExtCall where
  | preGenerate : String → String → ExtCall
  | contentStoreUpload : ExtCall
  | ledgerSubmit : ExtCall
deriving DecidableEq

/-- The response kinds the create handler distinguishes. -/
inductive CreateResponse where
  | badRequest : String → CreateResponse
  | created : CreateResponse
  | serverError : CreateResponse
deriving DecidableEq

def msgMissingFields : String := "Missing required fields"

def msgInvalidPlatform : String := "Invalid platform format"

def msgInvalidDateFormat : String := "Invalid discoveryDate format"

def msgInvalidYear : String := "Invalid discoveryDate year"

/-- The platform regex of the route, create.js line 95: exactly 2 to 5
uppercase letters. -/
def platformOk (p : String) : Bool :=
  decide (2 ≤ p.length ∧ p.length ≤ 5) && p.toList.all Char.isUpper

/-- The route's date regex, create.js line 105 (shape only): four digits,
optionally followed by dash two digits dash two digits. -/
def routeDateShapeOk (d : String) : Bool :=
  (decide (d.length = 4) && d.toList.all Char.isDigit) || (dateFields d.toList).isSome

/-- The route's year-range check, create.js lines 115-116: parseInt of the
first four characters must lie in [1990, 9999] (evaluated after the shape
check, so those characters are digits). -/
def routeYearOk (d : String) : Bool :=
  decide (1990 ≤ digitsToNat (d.toList.take 4) ∧ digitsToNat (d.toList.take 4) ≤ 9999)

/-- The create flow of src/backend/routes/vulnerabilities/create.js (route
validations at lines 87-122, preGenerate contract call at line 127, content
upload at line 154, ledger submission at line 196) composed with the date
re-validation that blockchain.addVulnerability performs before the contract
call (src/backend/services/blockchain.js lines 92-101, throwing into the
route's catch).  Collaborator calls are recorded in issue order and assumed to
succeed, their own failure modes being orthogonal to the claim; the result is
the call trace paired with the response kind. -/
def createVulnerability (inp : VulnInput) : List ExtCall × CreateResponse :=
  if inp.title = "" ∨ inp.description = "" ∨ inp.platform = "" ∨
      inp.discoveryDate = "" then
    ([], CreateResponse.badRequest msgMissingFields)
  else if platformOk inp.platform = false then
    ([], CreateResponse.badRequest msgInvalidPlatform)
  else if routeDateShapeOk inp.discoveryDate = false then
    ([], CreateResponse.badRequest msgInvalidDateFormat)
  else if routeYearOk inp.discoveryDate = false then
    ([], CreateResponse.badRequest msgInvalidYear)
  else if (validateDiscoveryDate inp.discoveryDate).1 = true then
    ([ExtCall.preGenerate inp.platform inp.discoveryDate,
      ExtCall.contentStoreUpload, ExtCall.ledgerSubmit],
     CreateResponse.created)
  else
    ([ExtCall.preGenerate inp.platform inp.discoveryDate,
      ExtCall.contentStoreUpload],
     CreateResponse.serverError)

def cexTitle : String := "Reentrancy in withdraw"

def cexDescription : String := "State update after external call"

def platETH : String := "ETH"

/-- A create request that passes every route-level check but whose date the
section 4.2 validator rejects (month 13). -/
def cexCreateInput : VulnInput :=
  { title := cexTitle
    description := cexDescription
    platform := platETH
    discoveryDate := dateMonth13 }

/-- **C4** counterexample: on the date 2023-13-01 the section 4.2 validator
fails, yet the create flow has already issued the content-store upload (and
the preGenerate ledger call) when the failure is reported: the trace of the
rejected request contains the upload, so the error is not detected before
every network call. -/
theorem createVulnerability_cex :
    (validateDiscoveryDate dateMonth13).1 = false ∧
    ExtCall.contentStoreUpload ∈ (createVulnerability cexCreateInput).1 ∧
    (createVulnerability cexCreateInput).2 = CreateResponse.serverError := by
  exact ⟨by decide, by decide, by decide⟩

/-- **C4** amended: failures of the route-level checks (missing required
field, bad platform grammar, bad date shape, year out of range) are reported
before any collaborator call (the trace is empty); a well-shaped date the
section 4.2 validator rejects (invalid month or day) is rejected only after
the content-store upload, though still before the ledger submission, which is
never issued for a date the validator rejects. -/
theorem createVulnerability_failFast :
    ∀ inp : VulnInput,
      ((inp.title = "" ∨ inp.description = "" ∨ inp.platform = "" ∨
          inp.discoveryDate = "" ∨ platformOk inp.platform = false ∨
          routeDateShapeOk inp.discoveryDate = false ∨
          routeYearOk inp.discoveryDate = false) →
        (createVulnerability inp).1 = []) ∧
      ((validateDiscoveryDate inp.discoveryDate).1 = false →
        ExtCall.ledgerSubmit ∉ (createVulnerability inp).1) := by
  intro inp
  constructor
  · intro h
    unfold createVulnerability
    split
    · rfl
    · split
      · rfl
      · split
        · rfl
        · split
          · rfl
          · exfalso
            rename_i h1 h2 h3 h4
            rcases h with h | h | h | h | h | h | h
            · exact h1 (Or.inl h)
            · exact h1 (Or.inr (Or.inl h))
            · exact h1 (Or.inr (Or.inr (Or.inl h)))
            · exact h1 (Or.inr (Or.inr (Or.inr h)))
            · exact h2 h
            · exact h3 h
            · exact h4 h
  · intro hval
    unfold createVulnerability
    split
    · simp
    · split
      · simp
      · split
        · simp
        · split
          · simp
          · split
            · rename_i hv
              rw [hval] at hv
              exact absurd hv (by simp)
            · simp

/-- Witness for the C4 amended theorem: in the concrete month-13 scenario the
ledger submission is never issued. -/
theorem createVulnerability_failFast_witness :
    ExtCall.ledgerSubmit ∉ (createVulnerability cexCreateInput).1 :=
  (createVulnerability_failFast cexCreateInput).2 (by decide)

/-- One outgoing call of the status-toggle route.  The contentStoreCall
constructor exists only so that the absence of content-store traffic is a
statement about the trace, not vacuously true by type. -/
inductive StatusCall where
  | ledgerSetStatus : LedgerKey → Bool → StatusCall
  | contentStoreCall : StatusCall
deriving DecidableEq

/-- The setVulnerabilityStatus route, src/backend/routes/vulnerabilities.js
lines 477-499 and the status handler of
src/backend/routes/vulnerabilities/create.js: resolve the supplied id to a
ledger key and submit exactly one setVulnerabilityStatus transaction
(src/backend/services/blockchain.js lines 289-300); no other collaborator is
contacted. -/
def setStatusRoute (id : String) (isActive : Bool) : List StatusCall :=
  [StatusCall.ledgerSetStatus (resolveVulnerabilityId id) isActive]

/-- One version snapshot held by the ledger for a logical vulnerability. -/
structure VersionRecord where
  version : Nat
  contentHash : String
deriving DecidableEq

/-- Modelled from the spec: the ledger-side state of one logical vulnerability
(spec section 3): the ordered version chain plus the isActive flag, a property
of the logical vulnerability rather than of any version.  The smart contract
holding this state is not part of this repository. -/
structure LogicalVuln where
  versions : List VersionRecord
  isActive : Bool
deriving DecidableEq

/-- Modelled from the spec: the ledger registry, BaseId to logical
vulnerability (spec section 4.3). -/
def LedgerState : Type := String → Option LogicalVuln

/-- Modelled from the spec: setActive (spec section 4.3) flips only the
isActive flag of the addressed logical vulnerability. -/
def setActive (st : LedgerState) (baseId : String) (b : Bool) : LedgerState :=
  fun k =>
    if k = baseId then (st k).map (fun v => { v with isActive := b }) else st k

/-- The latest version snapshot of a logical vulnerability. -/
def latestVersion (st : LedgerState) (baseId : String) : Option VersionRecord :=
  (st baseId).bind (fun v => v.versions.getLast?)

/-- **C8** The status toggle only resolves the supplied id and issues one
ledger setActive call (no content-store call in its trace); and toggling the
flag twice (true to false to true) leaves every version chain, hence the
version number and content hash of the latest version, unchanged. -/
theorem setStatusRoute_frame :
    ∀ (id : String) (b : Bool) (st : LedgerState) (baseId other : String),
      setStatusRoute id b =
        [StatusCall.ledgerSetStatus (resolveVulnerabilityId id) b] ∧
      StatusCall.contentStoreCall ∉ setStatusRoute id b ∧
      (setActive (setActive st baseId false) baseId true other).map
          LogicalVuln.versions = (st other).map LogicalVuln.versions ∧
      latestVersion (setActive (setActive st baseId false) baseId true) baseId =
        latestVersion st baseId := by
  intro id b st baseId other
  refine ⟨rfl, ?_, ?_, ?_⟩
  · simp [setStatusRoute]
  · unfold setActive
    by_cases h : other = baseId
    · subst h
      simp only [if_pos rfl]
      cases st other <;> simp
    · simp [h]
  · unfold latestVersion setActive
    simp only [if_pos rfl]
    cases st baseId <;> simp

/-- Modelled from the spec: the append-only ordered id sequence held by the
ledger contract, returned whole by getAllBaseVulnerabilityIds (wrapped by
getAllBaseIds, src/backend/services/blockchain.js lines 244-252). -/
def listAllBaseIds (registry : List String) : List String := registry

/-- Modelled from the spec: the 1-indexed paginated view of the same sequence
(spec section 4.3 listPage, wrapped by getPaginatedVulnerabilityIds,
src/backend/services/blockchain.js lines 308-315). -/
def listPage (registry : List String) (page pageSize : Nat) : List String :=
  (registry.drop ((page - 1) * pageSize)).take pageSize

/-- Number of pages: the ceiling of count over pageSize, as the service
computes with Math.ceil (src/backend/services/blockchain.js line 343). -/
def numPages (count pageSize : Nat) : Nat :=
  (count + pageSize - 1) / pageSize

/-- Concatenation of pages 1 up to numPages. -/
def concatPages (registry : List String) (pageSize : Nat) : List String :=
  ((List.range (numPages registry.length pageSize)).map
    (fun i => listPage registry (i + 1) pageSize)).flatten

/-- Concatenating the first m chunks of width k reproduces the first m * k
elements. -/
theorem join_chunks (l : List String) (k : Nat) :
    ∀ m : Nat,
      ((List.range m).map (fun i => (l.drop (i * k)).take k)).flatten =
        l.take (m * k) := by
  intro m
  induction m with
  | zero => simp
  | succ n ih =>
    rw [List.range_succ, List.map_append, List.flatten_append, ih]
    have hmul : (n + 1) * k = n * k + k := by ring
    rw [hmul, List.take_add]
    simp

/-- The registry length never exceeds numPages pages of width k. -/
theorem le_numPages_mul (n k : Nat) (hk : 1 ≤ k) : n ≤ numPages n k * k := by
  have key : ∀ m r : Nat, m + r = n + k - 1 → r < k → n ≤ m := by
    intro m r h1 h2
    omega
  have h1 : k * ((n + k - 1) / k) + (n + k - 1) % k = n + k - 1 :=
    Nat.div_add_mod _ _
  have h2 : (n + k - 1) % k < k := Nat.mod_lt _ hk
  unfold numPages
  rw [Nat.mul_comm]
  exact key _ _ h1 h2

/-- **C6** Pagination completeness: for every page size at least 1 and every
fixed registry state, concatenating listPage(1,k), listPage(2,k), ... up to
the last non-empty page reproduces listAllBaseIds exactly (hence no duplicate
and no missing entry), and every page past numPages is empty. -/
theorem pagination_complete :
    ∀ (registry : List String) (k : Nat), 1 ≤ k →
      concatPages registry k = listAllBaseIds registry ∧
      ∀ p : Nat, numPages registry.length k < p → listPage registry p k = [] := by
  intro registry k hk
  constructor
  · unfold concatPages listAllBaseIds
    have hpages :
        (List.range (numPages registry.length k)).map
            (fun i => listPage registry (i + 1) k) =
          (List.range (numPages registry.length k)).map
            (fun i => (registry.drop (i * k)).take k) := by
      refine List.map_congr_left ?_
      intro i _
      unfold listPage
      simp
    rw [hpages, join_chunks]
    exact List.take_of_length_le (le_numPages_mul _ _ hk)
  · intro p hp
    unfold listPage
    have hle : registry.length ≤ (p - 1) * k := by
      have h1 := le_numPages_mul registry.length k hk
      have h2 : numPages registry.length k ≤ p - 1 := by omega
      calc registry.length ≤ numPages registry.length k * k := h1
        _ ≤ (p - 1) * k := Nat.mul_le_mul_right _ h2
    rw [List.drop_eq_nil_of_le hle]
    simp

/-- A three-entry registry used as concrete witness state. -/
def sampleRegistry : List String := [cexIdA, cexIdB, cexIdC]

/-- Witness for the C6 theorem at page size 2 on a three-entry registry. -/
theorem pagination_complete_witness :
    concatPages sampleRegistry 2 = listAllBaseIds sampleRegistry :=
  (pagination_complete sampleRegistry 2 (by decide)).1
